import Mathlib

/-!
Verification of the retrieve, rerank, prompt-assembly, generate, guardrail
pipeline of the advanced-RAG workshop notebooks.  The loosely-typed JSON
payloads that the notebook functions manipulate are modelled by `JValue`,
and the Python exceptions they can raise by `PyErr`; every notebook
function is embedded as a total Lean function returning `Except PyErr _`
so that an uncaught Python exception corresponds to an `Except.error`
result.  Numeric payload fields are modelled as integers; no claim below
inspects a fractional score value.
-/

/-- A JSON-like Python value: the shape of every backend payload the
notebooks manipulate. -/
inductive JValue where
  | null
  | bool (b : Bool)
  | num (n : Int)
  | str (s : String)
  | arr (xs : List JValue)
  | obj (fields : List (String × JValue))

/-- The Python exceptions the embedded code can raise or catch. -/
inductive PyErr where
  | keyError (msg : String)
  | indexError (msg : String)
  | typeError (msg : String)
  | attributeError (msg : String)
  | runtimeError (msg : String)
  | clientError (msg : String)
deriving DecidableEq

/-- Python `str(e)` for an exception: the message text carried by the error. -/
def errStr : PyErr → String
  | .keyError m => m
  | .indexError m => m
  | .typeError m => m
  | .attributeError m => m
  | .runtimeError m => m
  | .clientError m => m

/-- A Python subscript: either a string key or an integer index. -/
inductive Key where
  | s (k : String)
  | i (n : Int)

/-- First-match lookup in an association list, modelling Python dict
access on the (unique-keyed) JSON objects the backends return. -/
def jlookup (fields : List (String × JValue)) (k : String) : Option JValue :=
  (fields.find? (fun p => p.1 == k)).map (fun p => p.2)

/-- Python list indexing semantics: non-negative indices from the front,
negative indices from the back, `none` when out of range. -/
def listGetInt {α : Type} (xs : List α) (n : Int) : Option α :=
  if 0 ≤ n then xs.get? n.toNat
  else if n.natAbs ≤ xs.length then xs.get? (xs.length - n.natAbs) else none

/-- Python `current[key]` on a JSON-like value: the exact exception
raised on each failing combination of receiver shape and key shape. -/
def pySub : JValue → Key → Except PyErr JValue
  | .obj fs, .s k =>
    match jlookup fs k with
    | some v => .ok v
    | none => .error (.keyError ("\x27" ++ k ++ "\x27"))
  | .obj _, .i n => .error (.keyError (toString n))
  | .arr xs, .i n =>
    match listGetInt xs n with
    | some v => .ok v
    | none => .error (.indexError "list index out of range")
  | .arr _, .s _ => .error (.typeError "list indices must be integers or slices, not str")
  | .str s, .i n =>
    match listGetInt s.toList n with
    | some c => .ok (.str (String.mk [c]))
    | none => .error (.indexError "string index out of range")
  | .str _, .s _ => .error (.typeError "string indices must be integers")
  | .null, _ => .error (.typeError "NoneType object is not subscriptable")
  | .bool _, _ => .error (.typeError "bool object is not subscriptable")
  | .num _, _ => .error (.typeError "int object is not subscriptable")

/-- Membership test over a list, used for Python substring search. -/
def listInfixOf (needle : List Char) : List Char → Bool
  | [] => needle.isEmpty
  | a :: as => needle.isPrefixOf (a :: as) || listInfixOf needle as

/-- Python `needle in hay` for strings: substring containment. -/
def strContainsSub (hay needle : String) : Bool :=
  listInfixOf needle.toList hay.toList

/-- Python `k in v` for a string `k`: dict-key membership, list element
membership, substring test on strings, `TypeError` otherwise. -/
def pyContains (v : JValue) (k : String) : Except PyErr Bool :=
  match v with
  | .obj fs => .ok (jlookup fs k).isSome
  | .arr xs =>
    .ok (xs.any (fun x => match x with | .str s => s == k | _ => false))
  | .str s => .ok (strContainsSub s k)
  | _ => .error (.typeError "argument is not iterable")

/-- Python truthiness of a JSON-like value. -/
def pyTruthy : JValue → Bool
  | .null => false
  | .bool b => b
  | .num n => n != 0
  | .str s => s != ""
  | .arr xs => !xs.isEmpty
  | .obj fs => !fs.isEmpty

/-- Python iteration over a value: list elements, string characters,
dict keys; `TypeError` on non-iterables. -/
def pyIter : JValue → Except PyErr (List JValue)
  | .arr xs => .ok xs
  | .str s => .ok (s.toList.map (fun c => .str (String.mk [c])))
  | .obj fs => .ok (fs.map (fun p => .str p.1))
  | _ => .error (.typeError "object is not iterable")

/-- Python `v.get(k, default)`: dict lookup with default;
`AttributeError` when the receiver is not a dict. -/
def pyDictGet (v : JValue) (k : String) (default : JValue) : Except PyErr JValue :=
  match v with
  | .obj fs => .ok ((jlookup fs k).getD default)
  | _ => .error (.attributeError "object has no attribute get")

mutual

/-- Python `repr` of a JSON-like value. -/
def pyRepr : JValue → String
  | .null => "None"
  | .bool true => "True"
  | .bool false => "False"
  | .num n => toString n
  | .str s => "\x27" ++ s ++ "\x27"
  | .arr xs => "[" ++ pyReprList xs ++ "]"
  | .obj fs => "\x7b" ++ pyReprFields fs ++ "\x7d"

/-- Comma-separated reprs of list elements. -/
def pyReprList : List JValue → String
  | [] => ""
  | [x] => pyRepr x
  | x :: xs => pyRepr x ++ ", " ++ pyReprList xs

/-- Comma-separated reprs of dict entries. -/
def pyReprFields : List (String × JValue) → String
  | [] => ""
  | [(k, v)] => "\x27" ++ k ++ "\x27: " ++ pyRepr v
  | (k, v) :: fs => "\x27" ++ k ++ "\x27: " ++ pyRepr v ++ ", " ++ pyReprFields fs

end

/-- Python `str` of a JSON-like value. -/
def pyToStr : JValue → String
  | .str s => s
  | v => pyRepr v

/-- The exception classes caught by the `except` clause of
`get_value_by_key_path`: `(KeyError, IndexError, TypeError)`. -/
def caughtByKeyPath : PyErr → Bool
  | .keyError _ => true
  | .indexError _ => true
  | .typeError _ => true
  | _ => false

/-- `get_value_by_key_path(d, path)` from the reranking notebook: walks
`current = current[key]` for each key, returning `None` as soon as a step
raises one of the caught exception classes; any other exception would
propagate (`Except.error`). -/
def get_value_by_key_path (d : JValue) : List Key → Except PyErr (Option JValue)
  | [] => .ok (some d)
  | k :: rest =>
    match pySub d k with
    | .ok v => get_value_by_key_path v rest
    | .error e => if caughtByKeyPath e then .ok none else .error e

/-- Modelled from the spec: the value reached by successively indexing
into the structure, with the absence marker whenever a step fails. -/
def keyPathRef (d : JValue) : List Key → Option JValue
  | [] => some d
  | k :: rest =>
    match pySub d k with
    | .ok v => keyPathRef v rest
    | .error _ => none

theorem pySub_error_caught (d : JValue) (k : Key) (e : PyErr)
    (h : pySub d k = .error e) : caughtByKeyPath e = true := by
  cases d <;> cases k <;> simp only [pySub] at h
  case obj.s fs k' =>
    cases hl : jlookup fs k' <;> rw [hl] at h
    · exact (Except.error.injEq _ _).mp h ▸ rfl
    · exact absurd h (by simp)
  case obj.i => exact (Except.error.injEq _ _).mp h ▸ rfl
  case arr.s => exact (Except.error.injEq _ _).mp h ▸ rfl
  case arr.i xs n =>
    cases hl : listGetInt xs n <;> rw [hl] at h
    · exact (Except.error.injEq _ _).mp h ▸ rfl
    · exact absurd h (by simp)
  case str.s => exact (Except.error.injEq _ _).mp h ▸ rfl
  case str.i s n =>
    cases hl : listGetInt s.toList n <;> rw [hl] at h
    · exact (Except.error.injEq _ _).mp h ▸ rfl
    · exact absurd h (by simp)
  case null.s => exact (Except.error.injEq _ _).mp h ▸ rfl
  case null.i => exact (Except.error.injEq _ _).mp h ▸ rfl
  case bool.s => exact (Except.error.injEq _ _).mp h ▸ rfl
  case bool.i => exact (Except.error.injEq _ _).mp h ▸ rfl
  case num.s => exact (Except.error.injEq _ _).mp h ▸ rfl
  case num.i => exact (Except.error.injEq _ _).mp h ▸ rfl

/-- Claim C2: `get_value_by_key_path` is total over malformed input — it
never lets an exception escape, returning the successively-indexed value
when every step succeeds and the absence marker `None` whenever a step
fails because the key is absent, the index is out of range, or the
current value is not indexable. -/
theorem get_value_by_key_path_total (d : JValue) (path : List Key) :
    get_value_by_key_path d path = .ok (keyPathRef d path) := by
  induction path generalizing d with
  | nil => rfl
  | cons k rest ih =>
    simp only [get_value_by_key_path, keyPathRef]
    cases h : pySub d k with
    | ok v => exact ih v
    | error e => simp [pySub_error_caught d k e h]

/-- The `try` body of `apply_output_guardrail` from the guardrails
notebook: the policy-evaluation call (abstracted as `call`), then
`if "outputs" in response and response["outputs"]:` returning
`response["outputs"][0]["text"]`, else the original text. -/
def apply_guardrail_try (call : Except PyErr JValue) (output_text : String) :
    Except PyErr JValue :=
  match call with
  | .error e => .error e
  | .ok response =>
    match pyContains response "outputs" with
    | .error e => .error e
    | .ok false => .ok (.str output_text)
    | .ok true =>
      match pySub response (.s "outputs") with
      | .error e => .error e
      | .ok outs =>
        if pyTruthy outs then
          match pySub outs (.i 0) with
          | .error e => .error e
          | .ok first => pySub first (.s "text")
        else .ok (.str output_text)

/-- `apply_output_guardrail(output_text)`: the `except Exception` clause
logs a warning and returns the original text. -/
def apply_output_guardrail (call : Except PyErr JValue) (output_text : String) :
    JValue :=
  match apply_guardrail_try call output_text with
  | .ok v => v
  | .error _ => .str output_text

/-- Claim C1: whenever the policy-evaluation call inside
`apply_output_guardrail` raises — the call itself fails, or the response
is malformed so extracting `outputs[0]["text"]` raises — the function
returns the input text byte-identically and does not raise. -/
theorem apply_output_guardrail_passthrough (text : String) :
    (∀ e : PyErr, apply_output_guardrail (.error e) text = .str text) ∧
    (∀ (resp : JValue) (e : PyErr),
      apply_guardrail_try (.ok resp) text = .error e →
      apply_output_guardrail (.ok resp) text = .str text) := by
  refine ⟨fun e => rfl, fun resp e h => ?_⟩
  simp only [apply_output_guardrail, h]

theorem apply_output_guardrail_passthrough_witness :
    apply_output_guardrail (.error (.clientError "ReadTimeout")) "the answer" =
      .str "the answer" ∧
    apply_output_guardrail
      (.ok (.obj [("outputs", .arr [.num 5])])) "the answer" = .str "the answer" :=
  ⟨(apply_output_guardrail_passthrough "the answer").1 (.clientError "ReadTimeout"),
   (apply_output_guardrail_passthrough "the answer").2
     (.obj [("outputs", .arr [.num 5])])
     (PyErr.typeError "int object is not subscriptable") rfl⟩

/-- The response-shape dispatch of `generate_response` (both the Lab 1
and the guardrails notebook define it identically): a list takes the
first element then its `generated_text`; otherwise `"generated_text" in
result`, then `"generation" in result`, else
`RuntimeError("Unexpected response format")`. -/
def generate_extract (result : JValue) : Except PyErr JValue :=
  match result with
  | .arr xs =>
    match pySub (.arr xs) (.i 0) with
    | .error e => .error e
    | .ok first => pySub first (.s "generated_text")
  | _ =>
    match pyContains result "generated_text" with
    | .error e => .error e
    | .ok true => pySub result (.s "generated_text")
    | .ok false =>
      match pyContains result "generation" with
      | .error e => .error e
      | .ok true => pySub result (.s "generation")
      | .ok false => .error (.runtimeError "Unexpected response format")

/-- `generate_response`: the endpoint invocation, body read and JSON
parse are abstracted as `call`; the surrounding `except Exception`
re-raises everything as `RuntimeError("Generation failed: ...")`. -/
def generate_response (call : Except PyErr JValue) : Except PyErr JValue :=
  match (match call with
         | .error e => (.error e : Except PyErr JValue)
         | .ok result => generate_extract result) with
  | .ok v => .ok v
  | .error e => .error (.runtimeError ("Generation failed: " ++ errStr e))

/-- Claim C4: `generate_response` extracts the generated text by checking,
in order, list shape (first element then `generated_text`), mapping with
`generated_text`, mapping with `generation`; any other shape raises a
fatal formatting error rather than returning silently. -/
theorem generate_response_shapes :
    (∀ (v : JValue) (fs : List (String × JValue)) (rest : List JValue),
      jlookup fs "generated_text" = some v →
      generate_response (.ok (.arr (.obj fs :: rest))) = .ok v) ∧
    (∀ (v : JValue) (fs : List (String × JValue)),
      jlookup fs "generated_text" = some v →
      generate_response (.ok (.obj fs)) = .ok v) ∧
    (∀ (v : JValue) (fs : List (String × JValue)),
      jlookup fs "generated_text" = none → jlookup fs "generation" = some v →
      generate_response (.ok (.obj fs)) = .ok v) ∧
    (∀ result : JValue, (∀ xs, result ≠ .arr xs) →
      (∀ fs, result = .obj fs →
        jlookup fs "generated_text" = none ∧ jlookup fs "generation" = none) →
      ∃ msg, generate_response (.ok result) = .error (.runtimeError msg)) := by
  refine ⟨fun v fs rest h => ?_, fun v fs h => ?_, fun v fs h1 h2 => ?_,
    fun result harr hobj => ?_⟩
  · simp [generate_response, generate_extract, pySub, listGetInt, h]
  · simp [generate_response, generate_extract, pyContains, pySub, h, Option.isSome]
  · simp [generate_response, generate_extract, pyContains, pySub, h1, h2, Option.isSome]
  · cases result with
    | null => exact ⟨_, rfl⟩
    | bool b => exact ⟨_, rfl⟩
    | num n => exact ⟨_, rfl⟩
    | str s =>
      simp only [generate_response, generate_extract, pyContains, pySub]
      cases strContainsSub s "generated_text" <;>
        cases strContainsSub s "generation" <;> exact ⟨_, rfl⟩
    | arr xs => exact absurd rfl (harr xs)
    | obj fs =>
      obtain ⟨h1, h2⟩ := hobj fs rfl
      simp [generate_response, generate_extract, pyContains, pySub, h1, h2]

theorem generate_response_shapes_witness :
    generate_response (.ok (.arr [.obj [("generated_text", .str "X")]])) =
      .ok (.str "X") ∧
    generate_response (.ok (.obj [("generated_text", .str "X")])) = .ok (.str "X") ∧
    generate_response (.ok (.obj [("generation", .str "X")])) = .ok (.str "X") ∧
    (∃ msg, generate_response (.ok (.num 7)) = .error (.runtimeError msg)) :=
  ⟨generate_response_shapes.1 (.str "X") [("generated_text", .str "X")] [] rfl,
   generate_response_shapes.2.1 (.str "X") [("generated_text", .str "X")] rfl,
   generate_response_shapes.2.2.1 (.str "X") [("generation", .str "X")] rfl rfl,
   generate_response_shapes.2.2.2 (.num 7) (fun _ h => JValue.noConfusion h)
     (fun _ h => JValue.noConfusion h)⟩

/-- One entry of the rerank backend response: `index` and
`relevanceScore` fields, each possibly absent. -/
structure RerankEntry where
  index : Option Int
  relevanceScore : Option JValue

/-- One element of the `reranked_results` list built by
`rerank_results`. -/
structure RerankedPassage where
  original_position : Int
  new_position : Nat
  relevance_score : JValue
  text : String

/-- The response-processing loop of `rerank_results`:
`idx = result.get("index", 0)`, `kb_results[idx]` (raising `IndexError`
out of range), `original_position = idx + 1`,
`new_position = len(reranked_results) + 1` (the counter `n` tracks the
number of passages appended so far). -/
def rerank_process (kb : List String) : Nat → List RerankEntry →
    Except PyErr (List RerankedPassage)
  | _, [] => .ok []
  | n, r :: rest =>
    match listGetInt kb (r.index.getD 0) with
    | none => .error (.indexError "list index out of range")
    | some t =>
      match rerank_process kb (n + 1) rest with
      | .error e => .error e
      | .ok ps =>
        .ok ({ original_position := r.index.getD 0 + 1, new_position := n + 1,
               relevance_score := r.relevanceScore.getD (.num 0), text := t } :: ps)

/-- `rerank_results(query, kb_results, ...)` after the backend call:
returns the dict with the original passages and the processed reranked
list. -/
def rerank_results (results : List RerankEntry) (kb : List String) :
    Except PyErr (List String × List RerankedPassage) :=
  match rerank_process kb 0 results with
  | .error e => .error e
  | .ok ps => .ok (kb, ps)

/-- A response entry carries an index that is a valid position into the
input passage list (the backend contract: indices point into the input). -/
def entryIndexOk (kb : List String) (r : RerankEntry) : Bool :=
  match r.index with
  | some i => decide (0 ≤ i) && decide (i < (kb.length : Int))
  | none => false

theorem rerank_process_spec (kb : List String) (l : List RerankEntry) :
    ∀ n : Nat, (∀ r ∈ l, entryIndexOk kb r = true) →
    ∃ out, rerank_process kb n l = .ok out
      ∧ out.map RerankedPassage.new_position = List.range' (n + 1) l.length
      ∧ List.Forall₂ (fun (r : RerankEntry) (p : RerankedPassage) =>
          ∀ i : Int, r.index = some i → p.original_position = i + 1) l out := by
  induction l with
  | nil => exact fun n _ => ⟨[], rfl, rfl, .nil⟩
  | cons r rest ih =>
    intro n h
    have hr := h r (List.mem_cons_self r rest)
    cases hri : r.index with
    | none => simp [entryIndexOk, hri] at hr
    | some i =>
      simp only [entryIndexOk, hri, Bool.and_eq_true, decide_eq_true_eq] at hr
      obtain ⟨h0, hlt⟩ := hr
      have htn : i.toNat < kb.length := by omega
      obtain ⟨t, ht⟩ : ∃ t, kb.get? i.toNat = some t := by
        rw [List.get?_eq_get htn]; exact ⟨_, rfl⟩
      have hget : listGetInt kb i = some t := by simpa [listGetInt, h0] using ht
      obtain ⟨out, hout, hmap, hfa⟩ :=
        ih (n + 1) (fun r' hr' => h r' (List.mem_cons_of_mem _ hr'))
      refine ⟨{ original_position := i + 1, new_position := n + 1,
                relevance_score := r.relevanceScore.getD (.num 0),
                text := t } :: out, ?_, ?_, ?_⟩
      · simp [rerank_process, hri, hget, hout]
      · simp [List.range'_succ, hmap]
      · refine List.Forall₂.cons (fun i' hi' => ?_) hfa
        rw [hri] at hi'
        injection hi' with h'
        rw [h']

/-- Claim C3: for every rerank backend response whose entries carry
valid indices into the input list (and at most `top_k` entries, as the
backend truncates), `rerank_results` succeeds, the `new_position` values
form exactly the contiguous sequence `1..N` where `N` is the length of
the returned result (`N ≤ top_k`), and each element's
`original_position` equals its backend-returned index plus 1. -/
theorem rerank_positions_contiguous (results : List RerankEntry)
    (kb : List String) (top_k : Nat)
    (hvalid : ∀ r ∈ results, entryIndexOk kb r = true)
    (hcount : results.length ≤ top_k) :
    ∃ out, rerank_results results kb = .ok (kb, out)
      ∧ out.map RerankedPassage.new_position = List.range' 1 out.length
      ∧ out.length = results.length
      ∧ out.length ≤ top_k
      ∧ List.Forall₂ (fun (r : RerankEntry) (p : RerankedPassage) =>
          ∀ i : Int, r.index = some i → p.original_position = i + 1) results out := by
  obtain ⟨out, hout, hmap, hfa⟩ := rerank_process_spec kb results 0 hvalid
  have hlen : out.length = results.length := hfa.length_eq.symm
  refine ⟨out, by simp [rerank_results, hout], ?_, hlen, hlen ▸ hcount, hfa⟩
  rw [hlen]; exact hmap

theorem rerank_positions_contiguous_witness :
    ∃ out,
      rerank_results [⟨some 1, some (.num 9)⟩, ⟨some 0, none⟩] ["a", "b", "c"] =
        .ok (["a", "b", "c"], out)
      ∧ out.map RerankedPassage.new_position = List.range' 1 out.length
      ∧ out.length = [⟨some 1, some (.num 9)⟩, (⟨some 0, none⟩ : RerankEntry)].length
      ∧ out.length ≤ 5
      ∧ List.Forall₂ (fun (r : RerankEntry) (p : RerankedPassage) =>
          ∀ i : Int, r.index = some i → p.original_position = i + 1)
          [⟨some 1, some (.num 9)⟩, ⟨some 0, none⟩] out :=
  rerank_positions_contiguous [⟨some 1, some (.num 9)⟩, ⟨some 0, none⟩]
    ["a", "b", "c"] 5 (by decide) (by decide)

theorem rerank_process_default_head (t : String) (ts : List String)
    (l : List RerankEntry) :
    ∀ (n : Nat) (out : List RerankedPassage),
    rerank_process (t :: ts) n l = .ok out →
    List.Forall₂ (fun (r : RerankEntry) (p : RerankedPassage) =>
      r.index = none → p.original_position = 1 ∧ p.text = t) l out := by
  induction l with
  | nil =>
    intro n out h
    injection h with h'
    rw [← h']
    exact .nil
  | cons r rest ih =>
    intro n out h
    simp only [rerank_process] at h
    cases hget : listGetInt (t :: ts) (r.index.getD 0) with
    | none => rw [hget] at h; exact absurd h (by simp)
    | some tx =>
      rw [hget] at h
      cases hrec : rerank_process (t :: ts) (n + 1) rest with
      | error e => rw [hrec] at h; exact absurd h (by simp)
      | ok ps =>
        rw [hrec] at h
        injection h with h'
        rw [← h']
        refine List.Forall₂.cons (fun hnone => ?_) (ih (n + 1) ps hrec)
        rw [hnone] at hget
        have htx : tx = t := by
          simp [listGetInt] at hget
          exact hget.symm
        exact ⟨by simp [hnone], by simp [htx]⟩

theorem rerank_process_oob (kb : List String) (l : List RerankEntry) :
    ∀ (n : Nat) (r : RerankEntry) (i : Int),
    r ∈ l → r.index = some i → (kb.length : Int) ≤ i →
    ∃ e, rerank_process kb n l = .error e := by
  induction l with
  | nil => intro n r i hmem; cases hmem
  | cons r' rest ih =>
    intro n r i hmem hidx hle
    cases hget : listGetInt kb (r'.index.getD 0) with
    | none =>
      exact ⟨PyErr.indexError "list index out of range",
        by simp [rerank_process, hget]⟩
    | some t =>
      rcases List.mem_cons.mp hmem with h1 | h2
      · subst h1
        rw [hidx] at hget
        have h0 : (0 : Int) ≤ i := le_trans (Int.ofNat_nonneg _) hle
        have hlen : kb.length ≤ i.toNat := by omega
        simp only [Option.getD_some, listGetInt] at hget
        rw [if_pos h0] at hget
        rw [List.get?_eq_none.mpr hlen] at hget
        cases hget
      · obtain ⟨e, he⟩ := ih (n + 1) r i h2 hidx hle
        exact ⟨e, by simp [rerank_process, hget, he]⟩

/-- Claim C10: a backend response entry lacking the `index` field is
silently defaulted to index 0 — producing a passage with
`original_position = 1` and the text of the first input passage, with no
error signalled — while an entry whose index lies outside the bounds of
the input passage list makes `rerank_results` raise an uncaught
exception. -/
theorem rerank_missing_and_oob_index :
    (∀ (sc : Option JValue) (t : String) (ts : List String),
      rerank_results [⟨none, sc⟩] (t :: ts) =
        .ok (t :: ts, [⟨1, 1, sc.getD (.num 0), t⟩])) ∧
    (∀ (results : List RerankEntry) (t : String) (ts : List String)
       (out : List RerankedPassage),
      rerank_results results (t :: ts) = .ok (t :: ts, out) →
      List.Forall₂ (fun (r : RerankEntry) (p : RerankedPassage) =>
        r.index = none → p.original_position = 1 ∧ p.text = t) results out) ∧
    (∀ (results : List RerankEntry) (kb : List String) (r : RerankEntry) (i : Int),
      r ∈ results → r.index = some i → (kb.length : Int) ≤ i →
      ∃ e, rerank_results results kb = .error e) := by
  refine ⟨fun sc t ts => ?_, fun results t ts out h => ?_, fun results kb r i h1 h2 h3 => ?_⟩
  · simp [rerank_results, rerank_process, listGetInt]
  · simp only [rerank_results] at h
    cases hp : rerank_process (t :: ts) 0 results with
    | error e => rw [hp] at h; exact absurd h (by simp)
    | ok ps =>
      rw [hp] at h
      injection h with h'
      have hps : ps = out := congrArg Prod.snd h'
      exact hps ▸ rerank_process_default_head t ts results 0 ps hp
  · obtain ⟨e, he⟩ := rerank_process_oob kb results 0 r i h1 h2 h3
    exact ⟨e, by simp [rerank_results, he]⟩

theorem rerank_missing_and_oob_index_witness :
    rerank_results [⟨none, none⟩] ["x"] = .ok (["x"], [⟨1, 1, .num 0, "x"⟩]) ∧
    List.Forall₂ (fun (r : RerankEntry) (p : RerankedPassage) =>
      r.index = none → p.original_position = 1 ∧ p.text = "x")
      [⟨none, none⟩] [⟨1, 1, .num 0, "x"⟩] ∧
    ∃ e, rerank_results [⟨some 5, none⟩] ["a"] = .error e :=
  ⟨rerank_missing_and_oob_index.1 none "x" [],
   rerank_missing_and_oob_index.2.1 [⟨none, none⟩] "x" [] [⟨1, 1, .num 0, "x"⟩]
     (rerank_missing_and_oob_index.1 none "x" []),
   rerank_missing_and_oob_index.2.2 [⟨some 5, none⟩] ["a"] ⟨some 5, none⟩ 5
     (List.mem_singleton.mpr rfl) rfl (by decide)⟩

/-- Python `"".join(items)`: concatenates string items, raising
`TypeError` on a non-string element. -/
def pyJoin : List JValue → Except PyErr String
  | [] => .ok ""
  | .str s :: rest =>
    match pyJoin rest with
    | .ok acc => .ok (s ++ acc)
    | .error e => .error e
  | _ :: _ => .error (.typeError "sequence item: expected str instance")

/-- One item of the span list in `search_kb`:
`item.get("span", "") if isinstance(item, dict) else str(item)`. -/
def spanPiece : JValue → JValue
  | .obj fs => (jlookup fs "span").getD (.str "")
  | v => .str (pyToStr v)

/-- A well-formed span item: a raw string, or a span object whose
`span` field (when present) is a string. -/
def spanOk : JValue → Bool
  | .str _ => true
  | .obj fs =>
    match jlookup fs "span" with
    | none => true
    | some (.str _) => true
    | some _ => false
  | _ => false

/-- The string a well-formed span item contributes to the passage text. -/
def spanStr : JValue → String
  | .str s => s
  | .obj fs =>
    match jlookup fs "span" with
    | some (.str s) => s
    | _ => ""
  | _ => ""

/-- In-order concatenation of a list of strings. -/
def concatAll : List String → String
  | [] => ""
  | s :: rest => s ++ concatAll rest

/-- The text normalization of one retrieval result inside `search_kb`:
`text = ""` unless `"content" in result and "text" in result["content"]`,
in which case the span list is joined into one string. -/
def extract_result_text (result : JValue) : Except PyErr String :=
  match pyContains result "content" with
  | .error e => .error e
  | .ok false => .ok ""
  | .ok true =>
    match pySub result (.s "content") with
    | .error e => .error e
    | .ok content =>
      match pyContains content "text" with
      | .error e => .error e
      | .ok false => .ok ""
      | .ok true =>
        match pySub content (.s "text") with
        | .error e => .error e
        | .ok tv =>
          match pyIter tv with
          | .error e => .error e
          | .ok items => pyJoin (items.map spanPiece)

/-- The whole loop body of `search_kb` for one result: the text
extraction followed by `result.get("scoreValue", 0)` used to build the
parallel `original_results` record. -/
def search_kb_result (result : JValue) : Except PyErr String :=
  match extract_result_text result with
  | .error e => .error e
  | .ok text =>
    match pyDictGet result "scoreValue" (.num 0) with
    | .error e => .error e
    | .ok _ => .ok text

/-- `search_kb(query, kb_id, numberOfResults)` from the reranking
notebook: no try/except — the backend call (`call`) and every processing
step raise straight through. -/
def search_kb (call : Except PyErr JValue) : Except PyErr (List String) :=
  match call with
  | .error e => .error e
  | .ok kb_response =>
    match pyDictGet kb_response "retrievalResults" (.arr []) with
    | .error e => .error e
    | .ok results =>
      match pyIter results with
      | .error e => .error e
      | .ok items => items.mapM search_kb_result

/-- The `try` body of `retrieve_from_bedrock` (Lab 1 and the guardrails
notebook): the backend call then
`[result["content"]["text"] for result in response["retrievalResults"]]`. -/
def retrieve_from_bedrock_try (call : Except PyErr JValue) :
    Except PyErr (List JValue) :=
  match call with
  | .error e => .error e
  | .ok response =>
    match pySub response (.s "retrievalResults") with
    | .error e => .error e
    | .ok results =>
      match pyIter results with
      | .error e => .error e
      | .ok items =>
        items.mapM (fun r =>
          match pySub r (.s "content") with
          | .error e => .error e
          | .ok c => pySub c (.s "text"))

/-- `retrieve_from_bedrock`: the `except Exception` clause re-raises as
`RuntimeError("Bedrock retrieval failed: ...")`. -/
def retrieve_from_bedrock (call : Except PyErr JValue) :
    Except PyErr (List JValue) :=
  match retrieve_from_bedrock_try call with
  | .ok v => .ok v
  | .error e => .error (.runtimeError ("Bedrock retrieval failed: " ++ errStr e))

/-- String prefix test over the underlying character lists. -/
def strHasPrefix (s p : String) : Bool :=
  p.toList.isPrefixOf s.toList

/-- A classified retrieval failure in the sense of the spec: the
`RuntimeError` whose message carries the retrieval-failure tag followed
by the original error text. -/
def isClassifiedRetrievalFailure : PyErr → Bool
  | .runtimeError m => strHasPrefix m "Bedrock retrieval failed: "
  | _ => false

theorem listIsPrefixOf_append {α : Type} [DecidableEq α] (l t : List α) :
    l.isPrefixOf (l ++ t) = true := by
  induction l with
  | nil => simp [List.isPrefixOf]
  | cons a as ih => simp [List.isPrefixOf, ih]

/-- Claim C5 counterexample: a backend error surfacing from `search_kb`
is the raw client error, not a classified retrieval failure — `search_kb`
performs no wrapping. -/
theorem search_kb_unwrapped_counterexample :
    search_kb (.error (.clientError "AccessDeniedException")) =
      .error (.clientError "AccessDeniedException") ∧
    isClassifiedRetrievalFailure (.clientError "AccessDeniedException") = false :=
  ⟨rfl, rfl⟩

/-- Claim C5 amended: `retrieve_from_bedrock` catches any backend error
and re-raises it as a single classified retrieval failure carrying the
original error text, while `search_kb` performs no such wrapping — the
backend error propagates to the caller unchanged. -/
theorem retrieval_error_wrapping (e : PyErr) :
    retrieve_from_bedrock (.error e) =
      .error (.runtimeError ("Bedrock retrieval failed: " ++ errStr e)) ∧
    isClassifiedRetrievalFailure
      (.runtimeError ("Bedrock retrieval failed: " ++ errStr e)) = true ∧
    search_kb (.error e) = .error e := by
  refine ⟨rfl, ?_, rfl⟩
  simp only [isClassifiedRetrievalFailure, strHasPrefix]
  have : ("Bedrock retrieval failed: " ++ errStr e).toList =
      "Bedrock retrieval failed: ".toList ++ (errStr e).toList := by
    simp [String.toList, String.data_append]
  rw [this]
  exact listIsPrefixOf_append _ _

theorem spanPiece_ok (it : JValue) (h : spanOk it = true) :
    spanPiece it = .str (spanStr it) := by
  cases it with
  | str s => rfl
  | obj fs =>
    simp only [spanOk] at h
    simp only [spanPiece, spanStr]
    cases hl : jlookup fs "span" with
    | none => simp
    | some v =>
      rw [hl] at h
      cases v <;> simp_all
  | null => simp [spanOk] at h
  | bool b => simp [spanOk] at h
  | num n => simp [spanOk] at h
  | arr xs => simp [spanOk] at h

theorem pyJoin_spans (items : List JValue)
    (h : ∀ it ∈ items, spanOk it = true) :
    pyJoin (items.map spanPiece) = .ok (concatAll (items.map spanStr)) := by
  induction items with
  | nil => rfl
  | cons it rest ih =>
    have hit := spanPiece_ok it (h it (List.mem_cons_self it rest))
    have ihr := ih (fun x hx => h x (List.mem_cons_of_mem _ hx))
    simp only [List.map, hit, pyJoin, ihr, concatAll]

/-- Claim C9: for a well-formed retrieval result, if the textual content
is a list of sub-spans (span objects or raw strings) the extracted
passage text is the in-order concatenation of all spans into one string,
and if the result has no textual content (`content` absent, or `text`
absent below it) the passage text is the empty string rather than an
error. -/
theorem search_kb_span_concat (fs : List (String × JValue)) :
    (∀ (cfs : List (String × JValue)) (items : List JValue),
      jlookup fs "content" = some (.obj cfs) →
      jlookup cfs "text" = some (.arr items) →
      (∀ it ∈ items, spanOk it = true) →
      extract_result_text (.obj fs) = .ok (concatAll (items.map spanStr))) ∧
    (jlookup fs "content" = none → extract_result_text (.obj fs) = .ok "") ∧
    (∀ cfs : List (String × JValue),
      jlookup fs "content" = some (.obj cfs) → jlookup cfs "text" = none →
      extract_result_text (.obj fs) = .ok "") := by
  refine ⟨fun cfs items h1 h2 h3 => ?_, fun h1 => ?_, fun cfs h1 h2 => ?_⟩
  · simp only [extract_result_text, pyContains, pySub, pyIter, h1, h2,
      Option.isSome_some]
    exact pyJoin_spans items h3
  · simp [extract_result_text, pyContains, h1]
  · simp [extract_result_text, pyContains, pySub, h1, h2]

theorem search_kb_span_concat_witness :
    extract_result_text
      (.obj [("content",
        .obj [("text", .arr [.obj [("span", .str "Amazon ")], .str "reported"])])]) =
      .ok "Amazon reported" ∧
    extract_result_text (.obj [("score", .num 1)]) = .ok "" ∧
    extract_result_text (.obj [("content", .obj [("type", .str "TEXT")])]) = .ok "" := by
  refine ⟨?_, ?_, ?_⟩
  · have h := (search_kb_span_concat
      [("content",
        .obj [("text", .arr [.obj [("span", .str "Amazon ")], .str "reported"])])]).1
      [("text", .arr [.obj [("span", .str "Amazon ")], .str "reported"])]
      [.obj [("span", .str "Amazon ")], .str "reported"] rfl rfl (by decide)
    simpa using h
  · exact (search_kb_span_concat [("score", .num 1)]).2.1 rfl
  · exact (search_kb_span_concat [("content", .obj [("type", .str "TEXT")])]).2.2
      [("type", .str "TEXT")] rfl rfl

/-- Python `sep.join(parts)`: the parts interleaved with the separator,
with no trailing separator. -/
def sepJoin (sep : String) : List String → String
  | [] => ""
  | [t] => t
  | t :: ts => t ++ sep ++ sepJoin sep ts

/-- The `kb_context` accumulation loop of the reranking notebook:
`kb_context += result["text"] + "\n\n"` over the reranked results. -/
def kb_context (reranked : List RerankedPassage) : String :=
  reranked.foldl (fun acc r => acc ++ r.text ++ "\n\n") ""

/-- Python `str.strip()`: removes leading and trailing whitespace. -/
def pyStrip (s : String) : String :=
  String.mk (((s.toList.dropWhile Char.isWhitespace).reverse.dropWhile
    Char.isWhitespace).reverse)

/-- `format_prompt(query, context)` of the guardrails notebook: the
system prompt embeds `" ".join(context)`, and the returned Llama 3
turn-delimited f-string is `.strip()`ped. -/
def format_prompt (query : String) (context : List String) : String :=
  let system_prompt :=
    "Use the following context to answer the question. If you don\x27t know the answer, say \x27I don\x27t know\x27.\n        Context:\n        "
    ++ sepJoin " " context ++ "\"\n    "
  pyStrip
    ("\n        <|begin_of_text|>\n        <|start_header_id|>system<|end_header_id|>\n        "
    ++ system_prompt
    ++ "\n        <|start_header_id|>user<|end_header_id|>\n        Question: "
    ++ query
    ++ "\n        <|start_header_id|>assistant<|end_header_id|>\n        ")

theorem kb_context_foldl (l : List RerankedPassage) :
    ∀ acc : String,
    List.foldl (fun acc r => acc ++ r.text ++ "\n\n") acc l =
      acc ++ concatAll (l.map (fun r => r.text ++ "\n\n")) := by
  induction l with
  | nil => intro acc; simp [concatAll]
  | cons r rest ih =>
    intro acc
    simp only [List.foldl, List.map, concatAll]
    rw [ih]
    simp [String.append_assoc]

theorem concatAll_sep (ts : List String) :
    concatAll (ts.map (· ++ "\n\n")) =
      sepJoin "\n\n" ts ++ (if ts.isEmpty then "" else "\n\n") := by
  induction ts with
  | nil => simp [concatAll, sepJoin]
  | cons t rest ih =>
    cases rest with
    | nil => simp [concatAll, sepJoin]
    | cons t2 rest2 =>
      simp only [List.map, concatAll] at ih ⊢
      rw [ih]
      simp [sepJoin, String.append_assoc]

/-- Claim C7 counterexample: the assembled context is not the passage
texts joined by the double-newline separator — a trailing separator is
appended after the last passage. -/
theorem kb_context_counterexample :
    kb_context [⟨1, 1, .num 0, "alpha"⟩, ⟨2, 2, .num 0, "beta"⟩] =
      "alpha\n\nbeta\n\n" ∧
    kb_context [⟨1, 1, .num 0, "alpha"⟩, ⟨2, 2, .num 0, "beta"⟩] ≠
      sepJoin "\n\n" ["alpha", "beta"] := by
  exact ⟨rfl, by decide⟩

/-- Claim C7 amended: `kb_context` equals the double-newline join of the
passage texts in `new_position` order followed by one trailing double
newline (for a nonempty list), and the guardrails-notebook
`format_prompt` interpolates its context joined by a single space. -/
theorem kb_context_trailing_sep :
    (∀ l : List RerankedPassage,
      kb_context l = sepJoin "\n\n" (l.map RerankedPassage.text) ++
        (if l.isEmpty then "" else "\n\n")) ∧
    format_prompt "Q" ["a", "b"] =
      "<|begin_of_text|>\n        <|start_header_id|>system<|end_header_id|>\n        Use the following context to answer the question. If you don\x27t know the answer, say \x27I don\x27t know\x27.\n        Context:\n        a b\"\n    \n        <|start_header_id|>user<|end_header_id|>\n        Question: Q\n        <|start_header_id|>assistant<|end_header_id|>" := by
  constructor
  · intro l
    rw [kb_context, kb_context_foldl l "",
      show List.map (fun r => r.text ++ "\n\n") l =
          (l.map RerankedPassage.text).map (fun t => t ++ "\n\n") from by
        rw [List.map_map]; rfl,
      concatAll_sep]
    cases l with
    | nil => rfl
    | cons r rest => simp
  · rfl

/-- One content block of a Converse-API message. -/
structure ContentBlock where
  text : String
deriving DecidableEq

/-- A role-tagged Converse-API message. -/
structure ConverseMessage where
  role : String
  content : List ContentBlock
deriving DecidableEq

/-- The inference configuration submitted with a Converse request. -/
structure InferenceConfig where
  maxTokens : Int
  temperature : Rat
deriving DecidableEq

/-- The request assembled by `invoke_converse` and handed to
`client.converse`. -/
structure ConverseRequest where
  modelId : String
  messages : List ConverseMessage
  system : List ContentBlock
  inferenceConfig : InferenceConfig
deriving DecidableEq

/-- The request construction inside `invoke_converse`: a single user
turn holding `user_prompt`, the system prompt as a separate system
field, and `inferenceConfig = {"maxTokens": 4096, "temperature":
temperature}` — the literal 4096, not the `max_tokens` parameter. -/
def buildConverseRequest (system_prompt user_prompt model_id : String)
    (temperature : Rat) (max_tokens : Int) : ConverseRequest :=
  { modelId := model_id
    messages := [{ role := "user", content := [{ text := user_prompt }] }]
    system := [{ text := system_prompt }]
    inferenceConfig := { maxTokens := 4096, temperature := temperature } }

/-- Python `status == n` for an integer literal `n`. -/
def jEqInt : JValue → Int → Bool
  | .num m, n => m == n
  | .bool b, n => (if b then (1 : Int) else 0) == n
  | _, _ => false

/-- The response-processing loop of `invoke_converse`:
`text = content.get("text")`, concatenated when truthy. -/
def concatTexts : List JValue → String → Except PyErr String
  | [], acc => .ok acc
  | content :: rest, acc =>
    match pyDictGet content "text" .null with
    | .error e => .error e
    | .ok t =>
      if pyTruthy t then
        match t with
        | .str s => concatTexts rest (acc ++ s)
        | _ => .error (.typeError "can only concatenate str to str")
      else concatTexts rest acc

/-- The `try` body of `invoke_converse`: build the request, call the
backend, branch on the HTTP status, concatenate the content texts on
success or format the in-band error string otherwise. -/
def invoke_converse_try (call : ConverseRequest → Except PyErr JValue)
    (system_prompt user_prompt model_id : String) (temperature : Rat)
    (max_tokens : Int) : Except PyErr (JValue × JValue) :=
  match call (buildConverseRequest system_prompt user_prompt model_id
      temperature max_tokens) with
  | .error e => .error e
  | .ok response =>
    match pySub response (.s "ResponseMetadata") with
    | .error e => .error e
    | .ok meta =>
      match pySub meta (.s "HTTPStatusCode") with
      | .error e => .error e
      | .ok status =>
        if jEqInt status 200 then
          match get_value_by_key_path response
              [.s "output", .s "message", .s "content"] with
          | .error e => .error e
          | .ok none => .error (.typeError "NoneType object is not iterable")
          | .ok (some cl) =>
            match pyIter cl with
            | .error e => .error e
            | .ok items =>
              match concatTexts items "" with
              | .error e => .error e
              | .ok answer => .ok (.str answer, response)
        else
          match pySub response (.s "Error") with
          | .error e => .error e
          | .ok errObj =>
            match pySub errObj (.s "Message") with
            | .error e => .error e
            | .ok msg =>
              .ok (.str ("Error: " ++ pyToStr status ++ " - " ++ pyToStr msg),
                   response)

/-- `invoke_converse`: the `except Exception` clause prints the error
and returns `(None, None)`. -/
def invoke_converse (call : ConverseRequest → Except PyErr JValue)
    (system_prompt user_prompt model_id : String) (temperature : Rat)
    (max_tokens : Int) : Option JValue × Option JValue :=
  match invoke_converse_try call system_prompt user_prompt model_id
      temperature max_tokens with
  | .ok (a, r) => (some a, some r)
  | .error _ => (none, none)

/-- Claim C8 (code bug): the Converse request wraps `user_prompt` as a
single user turn and `system_prompt` as a separate system field, but its
inference configuration carries the hard-coded literal 4096 as
`maxTokens`, not the request's `max_tokens` value. -/
theorem converse_request_fields :
    (∀ (sp up mid : String) (t : Rat) (mtk : Int),
      (buildConverseRequest sp up mid t mtk).messages =
        [{ role := "user", content := [{ text := up }] }] ∧
      (buildConverseRequest sp up mid t mtk).system = [{ text := sp }] ∧
      (buildConverseRequest sp up mid t mtk).inferenceConfig =
        { maxTokens := 4096, temperature := t }) ∧
    (buildConverseRequest "sys" "usr" "model-id" 0 10).inferenceConfig.maxTokens ≠
      10 :=
  ⟨fun _ _ _ _ _ => ⟨rfl, rfl, rfl⟩, by decide⟩

/-- Claim C6 counterexample: a transport failure inside
`invoke_converse` does not surface as a classified generation failure —
the caller receives `(None, None)`, identical for two different
underlying causes, so no cause is included. -/
theorem invoke_converse_swallow_counterexample :
    invoke_converse (fun _ => .error (.clientError "ConnectTimeoutError"))
      "s" "u" "m" (1 / 10) 4000 = (none, none) ∧
    invoke_converse (fun _ => .error (.clientError "ReadTimeoutError"))
      "s" "u" "m" (1 / 10) 4000 = (none, none) :=
  ⟨rfl, rfl⟩

/-- Claim C6 amended: on the raw-endpoint path `generate_response`
re-raises any transport failure as a classified generation failure
carrying the underlying cause, while on the conversational path
`invoke_converse` catches all exceptions and returns `(None, None)`,
surfacing neither a failure nor its cause. -/
theorem generation_error_paths (e : PyErr) (sp up mid : String) (t : Rat)
    (mtk : Int) :
    generate_response (.error e) =
      .error (.runtimeError ("Generation failed: " ++ errStr e)) ∧
    invoke_converse (fun _ => .error e) sp up mid t mtk = (none, none) :=
  ⟨rfl, rfl⟩
